import Mathlib

/-!
Shallow embedding of the sandboxed execution subsystem of the repository:
the `ExecutionResult` record, the language strategies (`CppStrategy`,
`JavaStrategy`, `CsharpStrategy`), the strategy factory, and the Docker
based executors (`BaseDockerExecutor` / `DockerExecutor`) together with the
in-process `PythonExecutor`.

External interactions (Docker daemon calls, the filesystem, the clock,
subprocesses) are modelled by explicit environment records that fix the
outcome of every external call, and by a trace of `Effect`s recording
which external operations the code performed.  Clock readings are rational
numbers; a byte string is a Lean `String`.
-/

/-- A Python exception, split by whether it is a `ValueError` (the only
exception class the executor code catches specially). -/
inductive PyExc
  | valueError (message : String)
  | genericError (message : String)
  deriving DecidableEq, Repr

def PyExc.msg : PyExc → String
  | .valueError m => m
  | .genericError m => m

/-- `ExecutionResult` from `base_executor.py`: success flag, captured
output, captured error text and elapsed seconds. -/
structure ExecutionResult where
  success : Bool
  output : String
  error : String
  execution_time : ℚ
  deriving DecidableEq, Repr

/-- Observable external operations performed by the executors. -/
inductive Effect
  | mkWorkspace (dir : String)
  | rmWorkspace (dir : String)
  | writeFile (path content : String)
  | imageGet (image : String)
  | imagePull (image : String)
  | containerCreate (image command : String)
  | containerWait
  | containerLogs
  | containerRemoveForce (ok : Bool)
  deriving DecidableEq, Repr

/-- Python `str.lower` restricted to ASCII, which is all the executor ever
lowercases (language names and Docker error messages). -/
def pyLower (s : String) : String := String.mk (s.toList.map Char.toLower)

/-- Boolean prefix test on character lists. -/
def charsPrefixOf : List Char → List Char → Bool
  | [], _ => true
  | _ :: _, [] => false
  | a :: as, b :: bs => a == b && charsPrefixOf as bs

/-- Boolean infix test on character lists. -/
def charsInfixOf (needle : List Char) : List Char → Bool
  | [] => charsPrefixOf needle []
  | c :: cs => charsPrefixOf needle (c :: cs) || charsInfixOf needle cs

/-- Python `needle in haystack` on strings. -/
def containsSub (haystack needle : String) : Bool :=
  charsInfixOf needle.toList haystack.toList

/-- Python `os.path.join` for the two-component joins used here. -/
def pyJoin (a b : String) : String := a ++ "/" ++ b

/-- A single-quote character, used in Python repr output and in the
`bash -c` command wrappers. -/
def squote : String := String.mk [Char.ofNat 39]

/-- Opening curly brace as text. -/
def lcurly : String := String.mk [Char.ofNat 123]

/-- Closing curly brace as text. -/
def rcurly : String := String.mk [Char.ofNat 125]

/-- Python `repr` of a plain string (as printed inside a list). -/
def pyStrRepr (s : String) : String := squote ++ s ++ squote

/-- Python `str` of a list of strings, as produced by an f-string. -/
def pyListRepr (xs : List String) : String :=
  "[" ++ String.intercalate ", " (xs.map pyStrRepr) ++ "]"

/-- One entry of `config['languages']` in `language_config.json`. -/
structure LangConfig where
  image : String
  working_dir : Option String := none
  timeout : Option Nat := none
  compile_command : String := ""
  run_command : String := ""
  file_extension : String := ""
  project_based : Bool := false
  deriving DecidableEq, Repr

/-- Keys of the languages table in insertion order
(`get_supported_languages`). -/
def get_supported_languages (tbl : List (String × LangConfig)) : List String :=
  tbl.map (·.1)

/-- First-match association-list lookup, modelling Python dict access for
a dict built once from JSON (keys unique). -/
def lookupKey : List (String × LangConfig) → String → Option LangConfig
  | [], _ => none
  | (k, v) :: rest, key => if k = key then some v else lookupKey rest key

/-- The `ValueError` message raised by `get_language_config` for an
unsupported language. -/
def unsupported_language_message (language : String)
    (tbl : List (String × LangConfig)) : String :=
  "Unsupported language: " ++ language ++ ". Supported: " ++
    pyListRepr (get_supported_languages tbl)

/-- `BaseDockerExecutor.get_language_config`: lowercase the language, look
it up in the languages table, raise `ValueError` when absent. -/
def get_language_config (tbl : List (String × LangConfig))
    (language : String) : Except PyExc LangConfig :=
  let language := pyLower language
  match lookupKey tbl language with
  | some cfg => Except.ok cfg
  | none => Except.error (PyExc.valueError (unsupported_language_message language tbl))

/-- The three registered strategies of `LanguageStrategyFactory`. -/
inductive Strategy
  | cpp (config : LangConfig)
  | java (config : LangConfig)
  | csharp (config : LangConfig)
  deriving DecidableEq, Repr

def Strategy.config : Strategy → LangConfig
  | .cpp c => c
  | .java c => c
  | .csharp c => c

def Strategy.get_image (s : Strategy) : String := s.config.image

def Strategy.get_working_dir (s : Strategy) : String :=
  s.config.working_dir.getD "/tmp"

def Strategy.get_timeout (s : Strategy) : Nat :=
  s.config.timeout.getD 30

/-- `LanguageStrategyFactory.create_strategy`: case-insensitive lookup in
the fixed registry, `ValueError` for anything else. -/
def create_strategy (language : String) (config : LangConfig) :
    Except PyExc Strategy :=
  let language := pyLower language
  if language = "c++" then Except.ok (Strategy.cpp config)
  else if language = "java" then Except.ok (Strategy.java config)
  else if language = "c#" then Except.ok (Strategy.csharp config)
  else Except.error (PyExc.valueError ("Unsupported language: " ++ language))

/-! ## Java class-name extraction (`JavaStrategy._extract_class_name`)

`re.search(r'public\s+class\s+(\w+)')` and `re.search(r'class\s+(\w+)')`,
modelled by a left-to-right scan.  Because in both patterns every `\s+` is
followed by a token that cannot start with a whitespace character, and the
final `\w+` group is last, maximal munch coincides with the regex engine's
backtracking semantics. -/

/-- Python `\s` over ASCII. -/
def pyIsSpace (c : Char) : Bool :=
  c == ' ' || c == '\t' || c == '\n' || c == '\r' ||
    c == Char.ofNat 11 || c == Char.ofNat 12

/-- Python `\w` over ASCII. -/
def pyIsWordChar (c : Char) : Bool := c.isAlphanum || c == '_'

/-- Match a literal token, returning the remaining input. -/
def matchLit : List Char → List Char → Option (List Char)
  | [], rest => some rest
  | _ :: _, [] => none
  | p :: ps, c :: cs => if c = p then matchLit ps cs else none

/-- Split off the maximal prefix satisfying `p`. -/
def takeWhileSplit (p : Char → Bool) : List Char → List Char × List Char
  | [] => ([], [])
  | c :: cs =>
    if p c then
      let r := takeWhileSplit p cs
      (c :: r.1, r.2)
    else ([], c :: cs)

/-- Match `\s+` (one or more whitespace characters), greedily. -/
def matchWs1 (l : List Char) : Option (List Char) :=
  let r := takeWhileSplit pyIsSpace l
  if r.1.isEmpty then none else some r.2

/-- Match `(\w+)` (one or more word characters), returning the group. -/
def matchWord1 (l : List Char) : Option (List Char) :=
  let r := takeWhileSplit pyIsWordChar l
  if r.1.isEmpty then none else some r.1

/-- Match `class\s+(\w+)` anchored at the start of `l`. -/
def matchClassFrom (l : List Char) : Option (List Char) := do
  let r1 ← matchLit "class".toList l
  let r2 ← matchWs1 r1
  matchWord1 r2

/-- Match `public\s+class\s+(\w+)` anchored at the start of `l`. -/
def matchPublicClassFrom (l : List Char) : Option (List Char) := do
  let r1 ← matchLit "public".toList l
  let r2 ← matchWs1 r1
  matchClassFrom r2

/-- `re.search`: try the anchored matcher at every position, left to
right, returning the first group found. -/
def searchFirst (m : List Char → Option (List Char)) : List Char → Option (List Char)
  | [] => m []
  | c :: cs =>
    match m (c :: cs) with
    | some g => some g
    | none => searchFirst m cs

/-- `JavaStrategy._extract_class_name`: public class first, then any
class, else the empty string. -/
def extract_class_name (code : String) : String :=
  match searchFirst matchPublicClassFrom code.toList with
  | some g => String.mk g
  | none =>
    match searchFirst matchClassFrom code.toList with
    | some g => String.mk g
    | none => ""

/-- The `ValueError` message raised by `JavaStrategy.prepare_code` when no
class name can be extracted. -/
def javaNoClassMsg : String :=
  "Could not extract class name from Java code. Make sure your code contains a public class."

/-- Python `str.format` for the single `class_name` placeholder used in
the Java command templates. -/
def pyFormatClassName (template class_name : String) : String :=
  template.replace ("{class_name}") class_name

/-! ## C# wrapping (`CsharpStrategy`) -/

/-- Python `str.split` on a newline: split a character list at every
newline character (a trailing newline yields a final empty piece). -/
def splitOnNl : List Char → List (List Char)
  | [] => [[]]
  | c :: cs =>
    if c = '\n' then [] :: splitOnNl cs
    else
      match splitOnNl cs with
      | [] => [[c]]
      | l :: ls => (c :: l) :: ls

/-- Python `'\n'.join`: interleave a newline between the pieces. -/
def joinNl : List (List Char) → List Char
  | [] => []
  | [l] => l
  | l :: ls => l ++ '\n' :: joinNl ls

/-- `CsharpStrategy._indent_code`: indent every non-blank line (a line is
blank when `line.strip()` is empty, i.e. it has no non-whitespace
character). -/
def indent_code (code : String) (spaces : Nat) : String :=
  String.mk (joinNl ((splitOnNl code.toList).map fun line =>
    if (line.filter fun c => !(pyIsSpace c)).isEmpty then line
    else List.replicate spaces ' ' ++ line))

/-- Text of the wrapping template before the interpolated user code. -/
def csharpWrapHead : String :=
  "using System;\n            using System.Collections.Generic;\n            using System.Linq;\n\n            namespace Program\n            " ++
    lcurly ++ "\n                class Program\n                " ++ lcurly ++
    "\n                    static void Main(string[] args)\n                    " ++
    lcurly ++ "\n            "

/-- Text of the wrapping template after the interpolated user code. -/
def csharpWrapTail : String :=
  "\n                    " ++ rcurly ++ "\n                " ++ rcurly ++
    "\n            " ++ rcurly

/-- `CsharpStrategy._wrap_code`: leave the code alone when it contains
`static void Main` or `class `, otherwise nest it (indented by 12) inside
the generated `Main` template. -/
def wrap_code (code : String) : String :=
  if containsSub code "static void Main" || containsSub code "class " then code
  else csharpWrapHead ++ indent_code code 12 ++ csharpWrapTail

/-- The project file contents written by `CsharpStrategy.prepare_code`. -/
def csprojContent : String :=
  "<Project Sdk=\"Microsoft.NET.Sdk\">\n        <PropertyGroup>\n            <OutputType>Exe</OutputType>\n            <TargetFramework>net8.0</TargetFramework>\n            <ImplicitUsings>enable</ImplicitUsings>\n            <Nullable>enable</Nullable>\n        </PropertyGroup>\n        </Project>"

/-- The `prep_info` dictionary returned by `prepare_code`. -/
structure PrepInfo where
  filename : String
  class_name : Option String := none
  compile_cmd : Option String := none
  runCmd : Option String := none
  project_file : Option String := none
  deriving DecidableEq, Repr

/-- `prepare_code` of the three strategies.  `writeExc` is the outcome of
opening a file for writing in the workspace (`none` = all writes succeed);
a failed write raises before emitting its `writeFile` effect. -/
def prepare_code : Strategy → Option PyExc → String → String →
    Except PyExc PrepInfo × List Effect
  | .cpp config, writeExc, code, temp_dir =>
    match writeExc with
    | some e => (Except.error e, [])
    | none =>
      (Except.ok { filename := "code.cpp",
                   compile_cmd := some config.compile_command,
                   runCmd := some config.run_command },
       [Effect.writeFile (pyJoin temp_dir "code.cpp") code])
  | .java config, writeExc, code, temp_dir =>
    let class_name := extract_class_name code
    if class_name = "" then
      (Except.error (PyExc.valueError javaNoClassMsg), [])
    else
      match writeExc with
      | some e => (Except.error e, [])
      | none =>
        (Except.ok { filename := class_name ++ ".java",
                     class_name := some class_name,
                     compile_cmd := some (pyFormatClassName config.compile_command class_name),
                     runCmd := some (pyFormatClassName config.run_command class_name) },
         [Effect.writeFile (pyJoin temp_dir (class_name ++ ".java")) code])
  | .csharp _, writeExc, code, temp_dir =>
    let program_cs_content := wrap_code code
    match writeExc with
    | some e => (Except.error e, [])
    | none =>
      (Except.ok { filename := "Program.cs", project_file := some "Program.csproj" },
       [Effect.writeFile (pyJoin temp_dir "Program.cs") program_cs_content,
        Effect.writeFile (pyJoin temp_dir "Program.csproj") csprojContent])

/-- `get_execution_command` of the three strategies. -/
def get_execution_command : Strategy → PrepInfo → String
  | .cpp _, prep_info =>
    "bash -c " ++ squote ++ prep_info.compile_cmd.getD "" ++ " && " ++
      prep_info.runCmd.getD "" ++ squote
  | .java _, prep_info =>
    "bash -c " ++ squote ++ prep_info.compile_cmd.getD "" ++ " && " ++
      prep_info.runCmd.getD "" ++ squote
  | .csharp _, _ => "bash -c " ++ squote ++ "dotnet run" ++ squote

/-! ## Container wait (`BaseDockerExecutor._wait_for_container`) -/

/-- Outcome of `container.wait(timeout=...)`. -/
inductive WaitOutcome
  | normal (statusCode : Int)
  | waitError (e : PyExc)
  deriving DecidableEq, Repr

/-- Outcome of a `container.logs(...)` call. -/
inductive LogsOutcome
  | ok (logs : String)
  | fail (e : PyExc)
  deriving DecidableEq, Repr

/-- Environment for one `_wait_for_container` call: the outcome of the
wait, of the log retrieval on the normal path, of the log retrieval
retried inside the exception handler, whether `container.remove` succeeds,
and the clock readings (`tStart` at entry, `tOk` on the normal path,
`tErr` on the exception path). -/
structure ContainerEnv where
  waitRes : WaitOutcome
  logsRes : LogsOutcome
  logsRetryRes : LogsOutcome
  removeOk : Bool
  tStart : ℚ
  tOk : ℚ
  tErr : ℚ
  deriving DecidableEq, Repr

/-- `BaseDockerExecutor._cleanup_container`: `container.remove(force=True)`
with any exception swallowed; the trace records the attempt and whether it
succeeded. -/
def cleanup_container (removeOk : Bool) : List Effect :=
  [Effect.containerRemoveForce removeOk]

/-- The `except Exception` branch of `_wait_for_container`: best-effort
log retrieval, then a diagnostic failure result. -/
def waitErrorBranch (cenv : ContainerEnv) (e : PyExc) (effSoFar : List Effect) :
    ExecutionResult × List Effect :=
  let logs :=
    match cenv.logsRetryRes with
    | .ok l => l
    | .fail _ => ""
  ({ success := false, output := "",
     error := "Container execution error: " ++ e.msg ++ "\nLogs: " ++ logs,
     execution_time := cenv.tErr - cenv.tStart },
   effSoFar ++ [Effect.containerLogs] ++ cleanup_container cenv.removeOk)

/-- `BaseDockerExecutor._wait_for_container`. -/
def wait_for_container (cenv : ContainerEnv) (_timeout : Nat) :
    ExecutionResult × List Effect :=
  match cenv.waitRes with
  | .normal exit_code =>
    match cenv.logsRes with
    | .ok logs =>
      let execution_time := cenv.tOk - cenv.tStart
      let success := exit_code == 0
      (if success then
        { success := true, output := logs, error := "", execution_time := execution_time }
       else
        { success := false, output := "", error := logs, execution_time := execution_time },
       [Effect.containerWait, Effect.containerLogs] ++ cleanup_container cenv.removeOk)
    | .fail e =>
      waitErrorBranch cenv e [Effect.containerWait, Effect.containerLogs]
  | .waitError e =>
    waitErrorBranch cenv e [Effect.containerWait]

/-! ## Error classification (`BaseDockerExecutor._handle_execution_error`) -/

def msgNoSuchContainer : String :=
  "Container was removed unexpectedly. This might be a Docker configuration issue."

def msgTimeoutClass : String :=
  "Execution timed out. Your code might be running an infinite loop or taking too long."

def msgPermission : String :=
  "Permission denied. Check Docker permissions and file access rights."

def msgNoSpace : String :=
  "No disk space available for code execution."

/-- `BaseDockerExecutor._handle_execution_error` applied to `str(error)`
and the elapsed time. -/
def handle_execution_error (errText : String) (execution_time : ℚ) :
    ExecutionResult :=
  let error_msg :=
    if containsSub errText "No such container" then msgNoSuchContainer
    else if containsSub (pyLower errText) "timeout" then msgTimeoutClass
    else if containsSub (pyLower errText) "permission denied" then msgPermission
    else if containsSub (pyLower errText) "no space left" then msgNoSpace
    else "Execution failed: " ++ errText
  { success := false, output := "", error := error_msg,
    execution_time := execution_time }

/-- The classification rules exactly as the specification lists them, in
order: substring condition paired with the surfaced message. -/
def errorRules : List ((String → Bool) × String) :=
  [(fun m => containsSub m "No such container", msgNoSuchContainer),
   (fun m => containsSub (pyLower m) "timeout", msgTimeoutClass),
   (fun m => containsSub (pyLower m) "permission denied", msgPermission),
   (fun m => containsSub (pyLower m) "no space left", msgNoSpace)]

/-- First-matching-rule selection over a rule list. -/
def applyRules : List ((String → Bool) × String) → String → String → String
  | [], _, dflt => dflt
  | (cond, msg) :: rest, m, dflt => if cond m then msg else applyRules rest m dflt

/-- Modelled from the spec: the error message the specification's
classification cascade selects for an engine-level exception text. -/
def classify_error_spec (m : String) : String :=
  applyRules errorRules m ("Execution failed: " ++ m)

/-! ## `DockerExecutor.execute` -/

/-- Environment for one `DockerExecutor.execute` call: Docker
availability, the configured languages table, the name `mkdtemp` returns,
whether that directory still exists at cleanup time, and the outcomes of
every external call (file writes, image lookup/pull, container creation,
the container wait).  `tExecStart`/`tExecErr` are the clock readings taken
at the start of the call and inside its exception handlers. -/
structure ExecEnv where
  available : Bool
  languagesTbl : List (String × LangConfig)
  tempDirName : String
  dirExists : Bool
  writeExc : Option PyExc
  imageLocal : Bool
  pullExc : Option PyExc
  createExc : Option PyExc
  cenv : ContainerEnv
  tExecStart : ℚ
  tExecErr : ℚ
  deriving DecidableEq, Repr

/-- `BaseDockerExecutor._ensure_image_available`: local lookup, pull on
`ImageNotFound`; pull failures propagate. -/
def ensure_image_available (env : ExecEnv) (image : String) :
    Except PyExc Unit × List Effect :=
  if env.imageLocal then (Except.ok (), [Effect.imageGet image])
  else
    match env.pullExc with
    | none => (Except.ok (), [Effect.imageGet image, Effect.imagePull image])
    | some e => (Except.error e, [Effect.imageGet image, Effect.imagePull image])

/-- `BaseDockerExecutor._create_container`. -/
def create_container (env : ExecEnv) (image command : String) :
    Except PyExc Unit × List Effect :=
  match env.createExc with
  | none => (Except.ok (), [Effect.containerCreate image command])
  | some e => (Except.error e, [Effect.containerCreate image command])

/-- `BaseDockerExecutor._cleanup_temp_directory`: remove the directory
when the path is non-empty and still exists; errors are swallowed. -/
def cleanup_temp_directory (env : ExecEnv) (temp_dir : String) : List Effect :=
  if temp_dir ≠ "" ∧ env.dirExists then [Effect.rmWorkspace temp_dir] else []

def dockerUnavailableMsg : String :=
  "Docker is not available. Please ensure Docker is installed and running."

/-- The `try` block of `DockerExecutor.execute`: result (or exception),
the value of `temp_dir` at exit (for the `finally` block), and the trace
of effects performed so far. -/
def execute_try (env : ExecEnv) (code language : String) :
    Except PyExc ExecutionResult × Option String × List Effect :=
  match get_language_config env.languagesTbl language with
  | .error e => (Except.error e, none, [])
  | .ok language_config =>
    match create_strategy language language_config with
    | .error e => (Except.error e, none, [])
    | .ok strategy =>
      let temp_dir := env.tempDirName
      match prepare_code strategy env.writeExc code temp_dir with
      | (.error e, prepEff) =>
        (Except.error e, some temp_dir, Effect.mkWorkspace temp_dir :: prepEff)
      | (.ok prep_info, prepEff) =>
        let command := get_execution_command strategy prep_info
        match ensure_image_available env strategy.get_image with
        | (.error e, imgEff) =>
          (Except.error e, some temp_dir,
           Effect.mkWorkspace temp_dir :: (prepEff ++ imgEff))
        | (.ok _, imgEff) =>
          match create_container env strategy.get_image command with
          | (.error e, crEff) =>
            (Except.error e, some temp_dir,
             Effect.mkWorkspace temp_dir :: (prepEff ++ imgEff ++ crEff))
          | (.ok _, crEff) =>
            let wr := wait_for_container env.cenv strategy.get_timeout
            (Except.ok wr.1, some temp_dir,
             Effect.mkWorkspace temp_dir :: (prepEff ++ imgEff ++ crEff ++ wr.2))

/-- `DockerExecutor.execute`: availability guard, the `try` body, the
`except ValueError` / `except Exception` handlers, and the `finally`
workspace cleanup. -/
def docker_execute (env : ExecEnv) (code language : String) :
    ExecutionResult × List Effect :=
  if env.available then
    let r := execute_try env code language
    let cleanupEff :=
      match r.2.1 with
      | some d => cleanup_temp_directory env d
      | none => []
    match r.1 with
    | .ok result => (result, r.2.2 ++ cleanupEff)
    | .error (.valueError m) =>
      ({ success := false, output := "", error := m,
         execution_time := env.tExecErr - env.tExecStart }, r.2.2 ++ cleanupEff)
    | .error (.genericError m) =>
      (handle_execution_error m (env.tExecErr - env.tExecStart),
       r.2.2 ++ cleanupEff)
  else
    ({ success := false, output := "", error := dockerUnavailableMsg,
       execution_time := 0 }, [])

/-! ## `PythonExecutor` -/

/-- Outcome of `exec(code, safe_globals)` under captured stdout/stderr. -/
inductive ExecOutcome
  | completed (stdoutText stderrText : String)
  | raised (e : PyExc)
  deriving DecidableEq, Repr

/-- Environment for one `PythonExecutor.execute` call. -/
structure PyExecEnv where
  outcome : ExecOutcome
  tStart : ℚ
  tOk : ℚ
  tErr : ℚ
  deriving DecidableEq, Repr

/-- `PythonExecutor.execute`: run in-process, success iff the captured
stderr text is empty; an exception yields a failure with empty output. -/
def python_execute (env : PyExecEnv) : ExecutionResult :=
  match env.outcome with
  | .completed output error =>
    { success := error.length == 0, output := output, error := error,
      execution_time := env.tOk - env.tStart }
  | .raised e =>
    { success := false, output := "", error := e.msg,
      execution_time := env.tErr - env.tStart }

/-- Outcome of the `subprocess.run` call in `PythonExecutor.execute_file`
(`raised` also covers a temp-file creation failure). -/
inductive SubprocOutcome
  | finished (returncode : Int) (stdoutText stderrText : String)
  | timedOut
  | raised (e : PyExc)
  deriving DecidableEq, Repr

/-- Environment for one `PythonExecutor.execute_file` call. -/
structure SubprocEnv where
  outcome : SubprocOutcome
  tStart : ℚ
  tOk : ℚ
  tErr : ℚ
  deriving DecidableEq, Repr

/-- `PythonExecutor.execute_file`: success iff the subprocess return code
is zero, with the subprocess stdout and stderr passed through. -/
def python_execute_file (env : SubprocEnv) : ExecutionResult :=
  match env.outcome with
  | .finished returncode out err =>
    { success := returncode == 0, output := out, error := err,
      execution_time := env.tOk - env.tStart }
  | .timedOut =>
    { success := false, output := "",
      error := "Execution timed out (30s limit)",
      execution_time := env.tErr - env.tStart }
  | .raised e =>
    { success := false, output := "", error := "Execution failed: " ++ e.msg,
      execution_time := env.tErr - env.tStart }

/-! ## Sample configurations and environments used in witness theorems -/

/-- A sample Java entry of the languages table. -/
def cfgJavaSample : LangConfig :=
  { image := "openjdk:17-slim", working_dir := some "/workspace",
    timeout := some 10, compile_command := "javac {class_name}.java",
    run_command := "java {class_name}" }

/-- A sample C# entry of the languages table. -/
def cfgCsSample : LangConfig :=
  { image := "mcr.microsoft.com/dotnet/sdk:8.0", working_dir := some "/workspace",
    timeout := some 20, project_based := true }

/-- A sample container environment: clean exit 0 with logs. -/
def cenvSample : ContainerEnv :=
  { waitRes := .normal 0, logsRes := .ok "hi", logsRetryRes := .ok "",
    removeOk := true, tStart := 0, tOk := 1, tErr := 1 }

/-- A sample executor environment with Docker available and a Java entry. -/
def envSample : ExecEnv :=
  { available := true, languagesTbl := [("java", cfgJavaSample)],
    tempDirName := "/tmp/ws1", dirExists := true, writeExc := none,
    imageLocal := true, pullExc := none, createExc := none,
    cenv := cenvSample, tExecStart := 0, tExecErr := 2 }

/-! ## Helper lemmas -/


lemma string_length_zero_iff (s : String) : s.length = 0 ↔ s = "" := by
  constructor
  · intro h
    apply String.ext
    have h2 : s.data.length = 0 := h
    simpa using List.length_eq_zero.mp h2
  · intro h
    subst h
    rfl

lemma prepare_code_no_rmWorkspace (strategy : Strategy) (writeExc : Option PyExc)
    (code temp_dir d : String) :
    Effect.rmWorkspace d ∉ (prepare_code strategy writeExc code temp_dir).2 := by
  cases strategy <;> cases writeExc <;>
    simp [prepare_code] <;> split <;> simp

lemma prepare_code_no_containerCreate (strategy : Strategy) (writeExc : Option PyExc)
    (code temp_dir i c : String) :
    Effect.containerCreate i c ∉ (prepare_code strategy writeExc code temp_dir).2 := by
  cases strategy <;> cases writeExc <;>
    simp [prepare_code] <;> split <;> simp

lemma wait_no_rmWorkspace (cenv : ContainerEnv) (timeout : Nat) (d : String) :
    Effect.rmWorkspace d ∉ (wait_for_container cenv timeout).2 := by
  cases h : cenv.waitRes
  case normal ec =>
    cases hl : cenv.logsRes <;>
      simp [wait_for_container, waitErrorBranch, cleanup_container, h, hl]
  case waitError e =>
    simp [wait_for_container, waitErrorBranch, cleanup_container, h]

lemma ensure_image_no_rmWorkspace (env : ExecEnv) (image d : String) :
    Effect.rmWorkspace d ∉ (ensure_image_available env image).2 := by
  by_cases h : env.imageLocal <;> cases hp : env.pullExc <;>
    simp [ensure_image_available, h, hp]

lemma create_container_no_rmWorkspace (env : ExecEnv) (image command d : String) :
    Effect.rmWorkspace d ∉ (create_container env image command).2 := by
  cases h : env.createExc <;> simp [create_container, h]

lemma execute_try_no_rmWorkspace (env : ExecEnv) (code language d : String) :
    Effect.rmWorkspace d ∉ (execute_try env code language).2.2 := by
  rcases hc : get_language_config env.languagesTbl language with e | cfg
  · simp [execute_try, hc]
  rcases hs : create_strategy language cfg with e | strategy
  · simp [execute_try, hc, hs]
  rcases hp : prepare_code strategy env.writeExc code env.tempDirName with ⟨pres, prepEff⟩
  have hpr := prepare_code_no_rmWorkspace strategy env.writeExc code env.tempDirName d
  rw [hp] at hpr
  cases pres with
  | error e => simp_all [execute_try, hc, hs, hp]
  | ok prep_info =>
    rcases hi : ensure_image_available env strategy.get_image with ⟨ires, imgEff⟩
    have him := ensure_image_no_rmWorkspace env strategy.get_image d
    rw [hi] at him
    cases ires with
    | error e => simp_all [execute_try, hc, hs, hp, hi]
    | ok u =>
      rcases hcr : create_container env strategy.get_image
          (get_execution_command strategy prep_info) with ⟨cres, crEff⟩
      have hcc := create_container_no_rmWorkspace env strategy.get_image
        (get_execution_command strategy prep_info) d
      rw [hcr] at hcc
      cases cres with
      | error e => simp_all [execute_try, hc, hs, hp, hi, hcr]
      | ok u2 =>
        have hw := wait_no_rmWorkspace env.cenv strategy.get_timeout d
        simp_all [execute_try, hc, hs, hp, hi, hcr]

lemma execute_try_shape (env : ExecEnv) (code language : String) :
    ((execute_try env code language).2.1 = none ∧
      (execute_try env code language).2.2 = []) ∨
    ((execute_try env code language).2.1 = some env.tempDirName ∧
      Effect.mkWorkspace env.tempDirName ∈ (execute_try env code language).2.2) := by
  rcases hc : get_language_config env.languagesTbl language with e | cfg
  · left
    simp [execute_try, hc]
  rcases hs : create_strategy language cfg with e | strategy
  · left
    simp [execute_try, hc, hs]
  right
  rcases hp : prepare_code strategy env.writeExc code env.tempDirName with ⟨pres, prepEff⟩
  cases pres with
  | error e => simp [execute_try, hc, hs, hp]
  | ok prep_info =>
    rcases hi : ensure_image_available env strategy.get_image with ⟨ires, imgEff⟩
    cases ires with
    | error e => simp [execute_try, hc, hs, hp, hi]
    | ok u =>
      rcases hcr : create_container env strategy.get_image
          (get_execution_command strategy prep_info) with ⟨cres, crEff⟩
      cases cres with
      | error e => simp [execute_try, hc, hs, hp, hi, hcr]
      | ok u2 => simp [execute_try, hc, hs, hp, hi, hcr]

lemma docker_execute_trace (env : ExecEnv) (code language : String)
    (h : env.available = true) :
    (docker_execute env code language).2 =
      (execute_try env code language).2.2 ++
        (match (execute_try env code language).2.1 with
         | some d => cleanup_temp_directory env d
         | none => []) := by
  simp only [docker_execute, h, if_true]
  split <;> rfl

/-! ## Claim theorems -/

/-- C2: for every container handle passed to the wait operation, a forced
removal of the container is performed before the wait returns, on every
path (normal exit, wait error or timeout, and the path where log retrieval
itself throws), and a failure of the removal itself is swallowed: it does
not change the returned result. -/
theorem wait_always_force_removes_container :
    ∀ (cenv : ContainerEnv) (timeout : Nat),
      Effect.containerRemoveForce cenv.removeOk ∈ (wait_for_container cenv timeout).2 ∧
      ∀ b : Bool,
        (wait_for_container { cenv with removeOk := b } timeout).1 =
          (wait_for_container cenv timeout).1 := by
  intro cenv timeout
  constructor
  · cases h : cenv.waitRes
    case normal ec =>
      cases hl : cenv.logsRes <;>
        simp [wait_for_container, waitErrorBranch, cleanup_container, h, hl]
    case waitError e =>
      simp [wait_for_container, waitErrorBranch, cleanup_container, h]
  · intro b
    rcases cenv with ⟨w, l, lr, rm, t1, t2, t3⟩
    cases w <;> cases l <;> rfl

/-- C3: when the container wait completes normally and the logs are
retrieved, exit code 0 yields success with the combined log text as
output and empty error, and a nonzero exit code yields failure with empty
output and the same log text as error. -/
theorem wait_normal_exit_maps_exit_code :
    ∀ (cenv : ContainerEnv) (timeout : Nat) (ec : Int) (logs : String),
      cenv.waitRes = WaitOutcome.normal ec →
      cenv.logsRes = LogsOutcome.ok logs →
      ((ec = 0 → (wait_for_container cenv timeout).1 =
          { success := true, output := logs, error := "",
            execution_time := cenv.tOk - cenv.tStart }) ∧
       (ec ≠ 0 → (wait_for_container cenv timeout).1 =
          { success := false, output := "", error := logs,
            execution_time := cenv.tOk - cenv.tStart })) := by
  intro cenv timeout ec logs hw hl
  constructor
  · intro h0
    subst h0
    simp [wait_for_container, hw, hl]
  · intro hne
    simp [wait_for_container, hw, hl, hne]

/-- C3 witness: a concrete clean exit with logs "hi". -/
theorem wait_normal_exit_maps_exit_code_witness :
    (wait_for_container cenvSample 10).1 =
      { success := true, output := "hi", error := "",
        execution_time := cenvSample.tOk - cenvSample.tStart } :=
  (wait_normal_exit_maps_exit_code cenvSample 10 0 "hi" rfl rfl).1 rfl

/-- C7: when Docker is unavailable, every `execute` call returns the fixed
unavailability result with execution time exactly 0, and no external
effect is performed (no workspace creation, no runtime contact). -/
theorem docker_execute_unavailable :
    ∀ (env : ExecEnv) (code language : String), env.available = false →
      docker_execute env code language =
        ({ success := false, output := "", error := dockerUnavailableMsg,
           execution_time := 0 }, []) := by
  intro env code language h
  simp [docker_execute, h]

/-- C7 witness: a concrete unavailable environment. -/
theorem docker_execute_unavailable_witness :
    docker_execute { envSample with available := false } "print(1)" "java" =
      ({ success := false, output := "", error := dockerUnavailableMsg,
         execution_time := 0 }, []) :=
  docker_execute_unavailable { envSample with available := false } "print(1)" "java" rfl

/-- C8: the centralized error handler returns a failure result whose
message is selected by the first matching rule of the specification's
cascade (container vanished, timeout, permission denied, no space left,
otherwise generic wrapped message). -/
theorem handle_execution_error_matches_rules :
    ∀ (m : String) (t : ℚ),
      handle_execution_error m t =
        { success := false, output := "", error := classify_error_spec m,
          execution_time := t } := by
  intro m t
  simp only [handle_execution_error, classify_error_spec, errorRules, applyRules]

/-- C10: when the in-process Python execution completes without raising,
success holds iff the captured stderr text is empty; non-empty stderr with
normal completion yields failure carrying stderr as error and stdout as
output. -/
theorem python_execute_success_iff_empty_stderr :
    ∀ (penv : PyExecEnv) (so se : String),
      penv.outcome = ExecOutcome.completed so se →
      (((python_execute penv).success = true) ↔ se = "") ∧
      (se ≠ "" → python_execute penv =
        { success := false, output := so, error := se,
          execution_time := penv.tOk - penv.tStart }) := by
  intro penv so se h
  constructor
  · simp [python_execute, h, string_length_zero_iff]
  · intro hne
    have hlen : ¬ se.length = 0 := fun hh => hne ((string_length_zero_iff se).mp hh)
    simp [python_execute, h, hlen]

/-- C10 witness: a normally completing snippet that wrote "boom" to
stderr. -/
theorem python_execute_success_iff_empty_stderr_witness :
    python_execute { outcome := ExecOutcome.completed "out" "boom",
                     tStart := 0, tOk := 1, tErr := 1 } =
      { success := false, output := "out", error := "boom",
        execution_time := (1 : ℚ) - 0 } :=
  (python_execute_success_iff_empty_stderr
    { outcome := ExecOutcome.completed "out" "boom",
      tStart := 0, tOk := 1, tErr := 1 } "out" "boom" rfl).2 (by decide)

/-- C1: in every `DockerExecutor.execute` call in which the temporary
workspace directory is created (and still exists at cleanup time), that
directory is removed before the call returns, on every outcome; and when
the call fails before the workspace is created, no removal is attempted. -/
theorem docker_execute_cleans_workspace (env : ExecEnv) (code language : String)
    (hname : env.tempDirName ≠ "") (hex : env.dirExists = true) :
    (Effect.mkWorkspace env.tempDirName ∈ (docker_execute env code language).2 →
      Effect.rmWorkspace env.tempDirName ∈ (docker_execute env code language).2) ∧
    (Effect.mkWorkspace env.tempDirName ∉ (docker_execute env code language).2 →
      ∀ d, Effect.rmWorkspace d ∉ (docker_execute env code language).2) := by
  by_cases hav : env.available
  · have htr := docker_execute_trace env code language hav
    rcases execute_try_shape env code language with ⟨h1, h2⟩ | ⟨h1, h2⟩
    · rw [htr, h1, h2]
      constructor
      · intro hmem
        simp at hmem
      · intro _ d
        simp
    · rw [htr, h1]
      have hclean : cleanup_temp_directory env env.tempDirName =
          [Effect.rmWorkspace env.tempDirName] := by
        simp [cleanup_temp_directory, hname, hex]
      simp only [hclean]
      constructor
      · intro _
        exact List.mem_append_right _ (List.mem_singleton.mpr rfl)
      · intro hnot
        exact absurd (List.mem_append_left _ h2) hnot
  · have hfalse : env.available = false := by
      simpa using hav
    rw [docker_execute_unavailable env code language hfalse]
    constructor
    · intro hmem
      simp at hmem
    · intro _ d
      simp

/-- C1 witness: a concrete successful Java execution in `envSample`. -/
theorem docker_execute_cleans_workspace_witness :
    (Effect.mkWorkspace envSample.tempDirName ∈
        (docker_execute envSample "public class A" "java").2 →
      Effect.rmWorkspace envSample.tempDirName ∈
        (docker_execute envSample "public class A" "java").2) ∧
    (Effect.mkWorkspace envSample.tempDirName ∉
        (docker_execute envSample "public class A" "java").2 →
      ∀ d, Effect.rmWorkspace d ∉
        (docker_execute envSample "public class A" "java").2) :=
  docker_execute_cleans_workspace envSample "public class A" "java" (by decide) rfl

/-- C5: with Docker available, `execute` on a language absent (after
lowercasing) from the languages table returns failure with the message
carrying the supported-language list, and performs no external operation
at all: the effect trace is empty, so in particular no image lookup, no
pull and no container creation happen. -/
theorem docker_execute_unsupported_language (env : ExecEnv) (code language : String)
    (hav : env.available = true)
    (hun : lookupKey env.languagesTbl (pyLower language) = none) :
    (docker_execute env code language).1.success = false ∧
    (docker_execute env code language).1.error =
      "Unsupported language: " ++ pyLower language ++ ". Supported: " ++
        pyListRepr (get_supported_languages env.languagesTbl) ∧
    (docker_execute env code language).2 = [] := by
  have hc : get_language_config env.languagesTbl language =
      Except.error (PyExc.valueError
        (unsupported_language_message (pyLower language) env.languagesTbl)) := by
    simp [get_language_config, hun]
  simp [docker_execute, hav, execute_try, hc, unsupported_language_message]

/-- C5 witness: "ruby" is not in the sample table. -/
theorem docker_execute_unsupported_language_witness :
    (docker_execute envSample "puts 1" "ruby").1.success = false ∧
    (docker_execute envSample "puts 1" "ruby").1.error =
      "Unsupported language: " ++ pyLower "ruby" ++ ". Supported: " ++
        pyListRepr (get_supported_languages envSample.languagesTbl) ∧
    (docker_execute envSample "puts 1" "ruby").2 = [] :=
  docker_execute_unsupported_language envSample "puts 1" "ruby" rfl (by decide)

/-- C6: the Java class name is derived by searching for a public class
declaration first and falling back to any class declaration; when neither
matches, `prepare_code` fails with the preparation `ValueError` without
writing any file, and a full `execute` call on such code (with Docker
available) returns a failure without any container creation or file
write. -/
theorem java_class_name_derivation :
    (∀ (code : String) (g : List Char),
      searchFirst matchPublicClassFrom code.toList = some g →
      extract_class_name code = String.mk g) ∧
    (∀ (code : String) (g : List Char),
      searchFirst matchPublicClassFrom code.toList = none →
      searchFirst matchClassFrom code.toList = some g →
      extract_class_name code = String.mk g) ∧
    (∀ (config : LangConfig) (writeExc : Option PyExc) (code temp_dir : String),
      extract_class_name code = "" →
      prepare_code (Strategy.java config) writeExc code temp_dir =
        (Except.error (PyExc.valueError javaNoClassMsg), [])) ∧
    (∀ (env : ExecEnv) (code language : String),
      env.available = true → pyLower language = "java" →
      extract_class_name code = "" →
      (docker_execute env code language).1.success = false ∧
      (∀ i c, Effect.containerCreate i c ∉ (docker_execute env code language).2) ∧
      (∀ p c, Effect.writeFile p c ∉ (docker_execute env code language).2)) := by
  refine ⟨?_, ?_, ?_, ?_⟩
  · intro code g h
    simp only [String.toList] at h
    simp [extract_class_name, h]
  · intro code g h1 h2
    simp only [String.toList] at h1 h2
    simp [extract_class_name, h1, h2]
  · intro config writeExc code temp_dir h
    simp [prepare_code, h]
  · intro env code language hav hlang hcls
    have hprep : ∀ config, prepare_code (Strategy.java config) env.writeExc code env.tempDirName =
        (Except.error (PyExc.valueError javaNoClassMsg), []) := by
      intro config
      simp [prepare_code, hcls]
    rcases hlk : lookupKey env.languagesTbl (pyLower language) with _ | cfg
    · have hc : get_language_config env.languagesTbl language =
          Except.error (PyExc.valueError
            (unsupported_language_message (pyLower language) env.languagesTbl)) := by
        simp [get_language_config, hlk]
      refine ⟨?_, ?_, ?_⟩ <;>
        simp [docker_execute, hav, execute_try, hc]
    · have hc : get_language_config env.languagesTbl language = Except.ok cfg := by
        simp [get_language_config, hlk]
      have hs : create_strategy language cfg = Except.ok (Strategy.java cfg) := by
        simp [create_strategy, hlang]
      have htry : execute_try env code language =
          (Except.error (PyExc.valueError javaNoClassMsg), some env.tempDirName,
           [Effect.mkWorkspace env.tempDirName]) := by
        simp [execute_try, hc, hs, hprep cfg]
      refine ⟨?_, ?_, ?_⟩
      · simp [docker_execute, hav, htry]
      · intro i c
        simp [docker_execute, hav, htry, cleanup_temp_directory]
      · intro p c
        simp [docker_execute, hav, htry, cleanup_temp_directory]

/-- C6 witness: the public class wins on a concrete source; a source with
no class declaration fails preparation with no file written, and the full
execute call fails. -/
theorem java_class_name_derivation_witness :
    extract_class_name "public class Foo extends Bar" = String.mk "Foo".toList ∧
    prepare_code (Strategy.java cfgJavaSample) none "int x;" "/tmp/ws1" =
      (Except.error (PyExc.valueError javaNoClassMsg), []) ∧
    (docker_execute envSample "int x;" "java").1.success = false := by
  refine ⟨?_, ?_, ?_⟩
  · exact java_class_name_derivation.1 "public class Foo extends Bar"
      "Foo".toList (by decide)
  · exact java_class_name_derivation.2.2.1 cfgJavaSample none "int x;" "/tmp/ws1"
      (by decide)
  · exact (java_class_name_derivation.2.2.2 envSample "int x;" "java" rfl
      (by decide) (by decide)).1

/-- The invariant claimed for every produced `ExecutionResult`: success
implies an empty error text, and the elapsed time is non-negative. -/
def resultInvariant (r : ExecutionResult) : Prop :=
  (r.success = true → r.error = "") ∧ 0 ≤ r.execution_time

lemma resultInvariant_handle (m : String) (t : ℚ) (h : 0 ≤ t) :
    resultInvariant (handle_execution_error m t) := by
  constructor
  · intro hs
    simp [handle_execution_error] at hs
  · simpa [handle_execution_error] using h

lemma resultInvariant_wait (cenv : ContainerEnv) (timeout : Nat)
    (h1 : cenv.tStart ≤ cenv.tOk) (h2 : cenv.tStart ≤ cenv.tErr) :
    resultInvariant (wait_for_container cenv timeout).1 := by
  cases hw : cenv.waitRes
  case normal ec =>
    cases hl : cenv.logsRes
    case ok logs =>
      by_cases hec : ec == 0 <;>
        simp [wait_for_container, hw, hl, hec, resultInvariant, sub_nonneg, h1]
    case fail e =>
      simp [wait_for_container, waitErrorBranch, hw, hl, resultInvariant,
        sub_nonneg, h2]
  case waitError e =>
    simp [wait_for_container, waitErrorBranch, hw, resultInvariant,
      sub_nonneg, h2]

lemma resultInvariant_python (penv : PyExecEnv)
    (h1 : penv.tStart ≤ penv.tOk) (h2 : penv.tStart ≤ penv.tErr) :
    resultInvariant (python_execute penv) := by
  cases ho : penv.outcome
  case completed so se =>
    constructor
    · intro hs
      simp [python_execute, ho] at hs ⊢
      exact (string_length_zero_iff se).mp hs
    · simp [python_execute, ho, sub_nonneg, h1]
  case raised e =>
    simp [python_execute, ho, resultInvariant, sub_nonneg, h2]

lemma resultInvariant_docker (env : ExecEnv) (code language : String)
    (h0 : env.tExecStart ≤ env.tExecErr)
    (h1 : env.cenv.tStart ≤ env.cenv.tOk) (h2 : env.cenv.tStart ≤ env.cenv.tErr) :
    resultInvariant (docker_execute env code language).1 := by
  by_cases hav : env.available
  · rcases hr : (execute_try env code language).1 with e | result
    · cases e with
      | valueError m =>
        have : (docker_execute env code language).1 =
            { success := false, output := "", error := m,
              execution_time := env.tExecErr - env.tExecStart } := by
          simp only [docker_execute, hav, if_true]
          rw [hr]
        rw [this]
        exact ⟨by intro hs; simp at hs, by simpa [sub_nonneg] using h0⟩
      | genericError m =>
        have : (docker_execute env code language).1 =
            handle_execution_error m (env.tExecErr - env.tExecStart) := by
          simp only [docker_execute, hav, if_true]
          rw [hr]
        rw [this]
        exact resultInvariant_handle m _ (by simpa [sub_nonneg] using h0)
    · have hres : (docker_execute env code language).1 = result := by
        simp only [docker_execute, hav, if_true]
        rw [hr]
      have hwait : ∃ timeout, result = (wait_for_container env.cenv timeout).1 := by
        revert hr
        rcases hc : get_language_config env.languagesTbl language with e | cfg
        · simp [execute_try, hc]
        rcases hs : create_strategy language cfg with e | strategy
        · simp [execute_try, hc, hs]
        rcases hp : prepare_code strategy env.writeExc code env.tempDirName with ⟨pres, prepEff⟩
        cases pres with
        | error e => simp [execute_try, hc, hs, hp]
        | ok prep_info =>
          rcases hi : ensure_image_available env strategy.get_image with ⟨ires, imgEff⟩
          cases ires with
          | error e => simp [execute_try, hc, hs, hp, hi]
          | ok u =>
            rcases hcr : create_container env strategy.get_image
                (get_execution_command strategy prep_info) with ⟨cres, crEff⟩
            cases cres with
            | error e => simp [execute_try, hc, hs, hp, hi, hcr]
            | ok u2 =>
              intro hr
              refine ⟨strategy.get_timeout, ?_⟩
              simp [execute_try, hc, hs, hp, hi, hcr] at hr
              exact hr.symm
      rcases hwait with ⟨timeout, hwt⟩
      rw [hres, hwt]
      exact resultInvariant_wait env.cenv timeout h1 h2
  · have hfalse : env.available = false := by simpa using hav
    rw [docker_execute_unavailable env code language hfalse]
    exact ⟨by intro hs; simp at hs, le_refl 0⟩

/-- C4 (amended): every `ExecutionResult` produced by the centralized
error handler, the container wait, `PythonExecutor.execute` and
`DockerExecutor.execute` satisfies `success = true → error = ""` and has
non-negative elapsed time (assuming monotone clock readings), and
`PythonExecutor.execute_file` has non-negative elapsed time — but, unlike
the original claim, `execute_file` is excluded from the error clause: it
can return success with a non-empty error (see the counterexample). -/
theorem execution_result_invariant_amended :
    (∀ (m : String) (t : ℚ), 0 ≤ t →
      resultInvariant (handle_execution_error m t)) ∧
    (∀ (cenv : ContainerEnv) (timeout : Nat),
      cenv.tStart ≤ cenv.tOk → cenv.tStart ≤ cenv.tErr →
      resultInvariant (wait_for_container cenv timeout).1) ∧
    (∀ (penv : PyExecEnv), penv.tStart ≤ penv.tOk → penv.tStart ≤ penv.tErr →
      resultInvariant (python_execute penv)) ∧
    (∀ (env : ExecEnv) (code language : String),
      env.tExecStart ≤ env.tExecErr →
      env.cenv.tStart ≤ env.cenv.tOk → env.cenv.tStart ≤ env.cenv.tErr →
      resultInvariant (docker_execute env code language).1) ∧
    (∀ (senv : SubprocEnv), senv.tStart ≤ senv.tOk → senv.tStart ≤ senv.tErr →
      0 ≤ (python_execute_file senv).execution_time) := by
  refine ⟨?_, ?_, ?_, ?_, ?_⟩
  · intro m t h
    exact resultInvariant_handle m t h
  · intro cenv timeout h1 h2
    exact resultInvariant_wait cenv timeout h1 h2
  · intro penv h1 h2
    exact resultInvariant_python penv h1 h2
  · intro env code language h0 h1 h2
    exact resultInvariant_docker env code language h0 h1 h2
  · intro senv h1 h2
    cases ho : senv.outcome <;>
      simp [python_execute_file, ho, sub_nonneg, h1, h2]

/-- C4 counterexample: `PythonExecutor.execute_file` builds its result as
`success := (returncode == 0)`, `error := stderr`, so a subprocess that
exits 0 after writing "warn" to stderr yields `success = true` together
with a non-empty `error` — refuting the claimed invariant for
`execute_file`. -/
theorem execute_file_invariant_counterexample :
    (python_execute_file
        { outcome := SubprocOutcome.finished 0 "ok" "warn",
          tStart := 0, tOk := 1, tErr := 1 }).success = true ∧
    (python_execute_file
        { outcome := SubprocOutcome.finished 0 "ok" "warn",
          tStart := 0, tOk := 1, tErr := 1 }).error ≠ "" := by
  constructor
  · rfl
  · decide

/-- C4 witness: concrete instances of every conjunct of the amended
invariant. -/
theorem execution_result_invariant_amended_witness :
    resultInvariant (handle_execution_error "boom" 1) ∧
    resultInvariant (wait_for_container cenvSample 10).1 ∧
    resultInvariant (python_execute
      { outcome := ExecOutcome.completed "out" "", tStart := 0, tOk := 1, tErr := 1 }) ∧
    resultInvariant (docker_execute envSample "public class A" "java").1 ∧
    0 ≤ (python_execute_file
      { outcome := SubprocOutcome.finished 0 "ok" "", tStart := 0, tOk := 1, tErr := 1 }).execution_time := by
  refine ⟨?_, ?_, ?_, ?_, ?_⟩
  · exact execution_result_invariant_amended.1 "boom" 1 (by norm_num)
  · exact execution_result_invariant_amended.2.1 cenvSample 10 (by decide) (by decide)
  · exact execution_result_invariant_amended.2.2.1 _ (by norm_num) (by norm_num)
  · exact execution_result_invariant_amended.2.2.2.1 envSample "public class A" "java"
      (by decide) (by decide) (by decide)
  · exact execution_result_invariant_amended.2.2.2.2 _ (by norm_num) (by norm_num)

/-- C9 counterexample: `"class Foo"` contains no entry-point declaration
(no "static void Main"), yet `_wrap_code` leaves it unchanged — because
the code also skips wrapping whenever the substring "class " occurs.  So
wrapping does not happen exactly when an entry point is absent, refuting
the claimed equivalence. -/
theorem csharp_wrap_counterexample :
    containsSub "class Foo" "static void Main" = false ∧
    wrap_code "class Foo" = "class Foo" ∧
    wrap_code "class Foo" ≠
      csharpWrapHead ++ indent_code "class Foo" 12 ++ csharpWrapTail := by
  refine ⟨by decide, by decide, by decide⟩

/-- C9 (amended): the C# `prepare_code` always writes a `Program.csproj`
project descriptor alongside `Program.cs`; `Program.cs` holds the user
code nested (indented by 12, otherwise verbatim) inside the generated
`Main` template exactly when the code contains neither the substring
"static void Main" nor the substring "class ", and holds the user code
unchanged when it contains either substring. -/
theorem csharp_prepare_writes_project_and_wraps :
    ∀ (config : LangConfig) (code temp_dir : String),
      (prepare_code (Strategy.csharp config) none code temp_dir =
        (Except.ok { filename := "Program.cs", project_file := some "Program.csproj" },
         [Effect.writeFile (pyJoin temp_dir "Program.cs") (wrap_code code),
          Effect.writeFile (pyJoin temp_dir "Program.csproj") csprojContent])) ∧
      ((containsSub code "static void Main" = false ∧
        containsSub code "class " = false) →
        wrap_code code = csharpWrapHead ++ indent_code code 12 ++ csharpWrapTail) ∧
      ((containsSub code "static void Main" = true ∨
        containsSub code "class " = true) →
        wrap_code code = code) := by
  intro config code temp_dir
  refine ⟨rfl, ?_, ?_⟩
  · rintro ⟨h1, h2⟩
    simp [wrap_code, h1, h2]
  · rintro (h | h) <;> simp [wrap_code, h]

/-- C9 witness: a concrete bare statement is wrapped, and both files are
written. -/
theorem csharp_prepare_writes_project_and_wraps_witness :
    prepare_code (Strategy.csharp cfgCsSample) none "Console.WriteLine(1);" "/tmp/ws1" =
      (Except.ok { filename := "Program.cs", project_file := some "Program.csproj" },
       [Effect.writeFile (pyJoin "/tmp/ws1" "Program.cs")
          (wrap_code "Console.WriteLine(1);"),
        Effect.writeFile (pyJoin "/tmp/ws1" "Program.csproj") csprojContent]) ∧
    wrap_code "Console.WriteLine(1);" =
      csharpWrapHead ++ indent_code "Console.WriteLine(1);" 12 ++ csharpWrapTail := by
  refine ⟨(csharp_prepare_writes_project_and_wraps cfgCsSample
      "Console.WriteLine(1);" "/tmp/ws1").1,
    (csharp_prepare_writes_project_and_wraps cfgCsSample
      "Console.WriteLine(1);" "/tmp/ws1").2.1 ⟨by decide, by decide⟩⟩
